import Mathlib

set_option autoImplicit false

/-!
Verification of the glci build-and-release toolkit.

This file gives a shallow embedding of the four source files of the
repository — `steps.py` (pipeline step script generator), `ci/promote.py`
(release promotion orchestrator), `glci/credentialmanager.py` (credential
manager) and `.cicd-cli.py` (CLI entry point) — and settles the claims
C1–C10 about them.

Conventions of the embedding:
- Python strings are Lean `String`s; `str = None` default arguments become
  `Option String`, with Python truthiness (`None` and `""` are falsy)
  modelled explicitly by `truthyStr`.
- Side effects (file opens, S3 downloads, printed warnings/errors, calls
  to external per-provider routines) are modelled as explicit event lists
  returned alongside the result.
- Exceptions are modelled with `Except String`.
- External collaborators (the per-provider publish/cleanup routines, the
  file system) are oracles passed in as function arguments.
- Data shapes that the code reads from the external domain library
  (`glci.model`) are modelled from the specification's §3 description of
  their observable shape.
-/

/-- Embeds Python `sep.join(list)`: concatenation with `sep` between
consecutive elements, empty elements included. -/
def joinStrings (sep : String) : List String → String
  | [] => ""
  | [a] => a
  | a :: b :: rest => a ++ sep ++ joinStrings sep (b :: rest)

/-- Embeds Python `s.replace('-', '_')` (single-character pattern, so a
character map). -/
def underscore (s : String) : String :=
  String.mk (s.data.map (fun c => if c = '-' then '_' else c))

/-- A single-quote character as a string (Python renders call arguments as
`name='value'`). -/
def apos : String := "\x27"

/-- Python truthiness of an optional string: `None` and `""` are falsy. -/
def truthyStr (o : Option String) : Bool :=
  match o with
  | none => false
  | some s => s != ""

/-- Value of a non-empty decimal digit list, most significant first. -/
def digitsVal (l : List Char) : Nat :=
  l.foldl (fun n c => 10 * n + (c.toNat - 48)) 0

/-- Embeds Python `int(s)` for base 10: optional surrounding whitespace,
an optional sign, then one or more decimal digits; `none` models the
`ValueError` raised on any other input. -/
def pyInt? (s : String) : Option Int :=
  let l := (s.data.dropWhile Char.isWhitespace).reverse.dropWhile Char.isWhitespace |>.reverse
  match l with
  | [] => none
  | c :: rest =>
    if c = '-' then
      if rest ≠ [] ∧ rest.all Char.isDigit then some (-(digitsVal rest : Int)) else none
    else if c = '+' then
      if rest ≠ [] ∧ rest.all Char.isDigit then some ((digitsVal rest : Int)) else none
    else if (c :: rest).all Char.isDigit then some ((digitsVal (c :: rest) : Int)) else none

/-- Embeds Python `s.split('.')[0]`: the characters before the first dot
(the whole string when it has no dot). -/
def leadingSegment (s : String) : String :=
  String.mk (s.data.takeWhile (fun c => c ≠ '.'))

/-! ## Data shapes read from the external domain library (spec §3) -/

/-- A declared pipeline parameter `{name, default?}` (spec §3, `NamedParam`). -/
structure NamedParam where
  name : String
  default : Option String := none
deriving DecidableEq, Repr

/-- One environment entry of a task step, a Python `{'name': …, 'value': …}`
dict; the value comes from a `NamedParam.default` and so may be `None`. -/
structure EnvVar where
  name : String
  value : Option String
deriving DecidableEq, Repr

/-- A volume mount entry of a task step (opaque to the generator). -/
structure VolumeMount where
  name : String
  mountPath : String
deriving DecidableEq, Repr

/-- A pipeline-engine step definition (spec §3, `TaskStep`). -/
structure TaskStep where
  name : String
  image : String
  script : String
  volumeMounts : List VolumeMount
  env : List EnvVar
deriving DecidableEq, Repr

/-- One path entry of a release manifest: `{name, s3_bucket_name, s3_key}`
(spec §3, `OnlineReleaseManifest.paths[]`). -/
structure S3ReleaseFile where
  name : String
  s3_bucket_name : String
  s3_key : String
deriving DecidableEq, Repr

/-- The `logs` field of a manifest: absent, a legacy bare key string, or a
structured `{s3_bucket_name, s3_key}` record (spec §3). -/
inductive LogsValue
  | noLogs
  | legacy (key : String)
  | structured (f : S3ReleaseFile)
deriving DecidableEq, Repr

/-- One built artifact set for one flavour (spec §3,
`OnlineReleaseManifest`), restricted to the fields the in-scope code
reads. -/
structure OnlineReleaseManifest where
  platform : String
  paths : List S3ReleaseFile
  logs : LogsValue
  published_image_metadata : Option String
deriving DecidableEq, Repr

/-- Azure publish configuration, restricted to the field `publish_image`
dispatches on (spec §3, `CicdCfg.publish.azure`). -/
structure AzurePublishCfg where
  shared_gallery_cfg_name : Option String
deriving DecidableEq, Repr

/-- The `publish` part of a cicd configuration (spec §3). -/
structure PublishCfg where
  azure : AzurePublishCfg
deriving DecidableEq, Repr

/-- A cicd configuration record, restricted to what the embedded code
reads (spec §3, `CicdCfg`). -/
structure CicdCfg where
  publish : PublishCfg
deriving DecidableEq, Repr

/-! ## `steps.py` — pipeline step script generator -/

/-- The two script kinds of `steps.py` (`ScriptType`). -/
inductive ScriptType
  | BOURNE_SHELL
  | PYTHON3
deriving DecidableEq, Repr

/-- Events produced while rendering a step script. -/
inductive ScriptEvent
  | fileOpen (path : String)
deriving DecidableEq, Repr

/-- Embeds `extend_python_path_snippet` of `steps.py`; `sd_name` stands for
the module-level `os.path.basename(scripts_dir)` (the checkout-dependent
name of the scripts directory). -/
def extend_python_path_snippet (sd_name : String) (param_name : String) : String :=
  "sys.path.insert(1,os.path.abspath(os.path.join(\"$(params." ++ param_name ++ ")\",\""
    ++ sd_name ++ "\")))"

/-- The shebang line chosen per script kind in `task_step_script`. -/
def script_shebang : ScriptType → String
  | .PYTHON3 => "#!/usr/bin/env python3"
  | .BOURNE_SHELL => "#!/usr/bin/env bash"

/-- The preamble computed in `task_step_script`: a search-path extension
for the embedded-interpreter kind when a repository-path parameter is
given, empty otherwise. -/
def script_preamble (sd_name : String) : ScriptType → Option NamedParam → String
  | .PYTHON3, some rp => "import sys,os;" ++ extend_python_path_snippet sd_name rp.name
  | .PYTHON3, none => ""
  | .BOURNE_SHELL, _ => ""

/-- One rendered parameter argument of the embedded-interpreter branch:
`name_with_underscores='$(params.original-name)'`. -/
def pyParamArg (p : NamedParam) : String :=
  underscore p.name ++ "=" ++ apos ++ "$(params." ++ p.name ++ ")" ++ apos

/-- One rendered result argument of the embedded-interpreter branch:
`name_with_underscores='$(results.original-name.path)'`. -/
def pyResultArg (r : NamedParam) : String :=
  underscore r.name ++ "=" ++ apos ++ "$(results." ++ r.name ++ ".path)" ++ apos

/-- One rendered parameter argument of the shell branch:
`"$(params.name)"`. -/
def shParamArg (p : NamedParam) : String :=
  "\"$(params." ++ p.name ++ ")\""

/-- One rendered result argument of the shell branch:
`"$(results.name.path)"`. -/
def shResultArg (r : NamedParam) : String :=
  "\"$(results." ++ r.name ++ ".path)\""

/-- The argument string of the embedded-interpreter invocation line:
comma-joined parameter arguments, with comma-joined result arguments
appended after a further comma when the result list is truthy
(`args += ',' + …` in the source). -/
def pyArgs (params : List NamedParam) (results : Option (List NamedParam)) : String :=
  let args := joinStrings "," (params.map pyParamArg)
  match results with
  | some rs => if rs.isEmpty then args else args ++ "," ++ joinStrings "," (rs.map pyResultArg)
  | none => args

/-- The argument string of the shell invocation line. NOTE: the source
assigns (`args = ' ' + …`, not `+=`) when results are present, so the
parameter arguments are discarded in that case. -/
def shArgs (params : List NamedParam) (results : Option (List NamedParam)) : String :=
  let args := joinStrings " " (params.map shParamArg)
  match results with
  | some rs => if rs.isEmpty then args else " " ++ joinStrings " " (rs.map shResultArg)
  | none => args

/-- The invocation line (`callable_str`) computed in `task_step_script`. -/
def script_invocation (script_type : ScriptType) (callable : String)
    (params : List NamedParam) (results : Option (List NamedParam)) : String :=
  match script_type with
  | .PYTHON3 => callable ++ "(" ++ pyArgs params results ++ ")"
  | .BOURNE_SHELL => callable ++ " " ++ shArgs params results

/-- Embeds `task_step_script` of `steps.py`. `read_file` is the file-system
oracle; file opens are recorded as events. `sd_name` is the scripts
directory basename (see `extend_python_path_snippet`). A `ValueError` is
raised when both a (truthy) path and a (truthy) inline script are given;
the unbound-variable `NameError` of the neither-given case is also
modelled as an error. -/
def task_step_script (read_file : String → String) (sd_name : String)
    (script_type : ScriptType) (callable : Option String)
    (params : List NamedParam) (results : Option (List NamedParam))
    (repo_path_param : Option NamedParam)
    (path : Option String) (inline_script : Option String) :
    List ScriptEvent × Except String String :=
  if truthyStr path && truthyStr inline_script then
    ([], .error "Either use path or inline_script but not both.")
  else
    let (events, scriptOpt) :=
      if truthyStr path then
        ([ScriptEvent.fileOpen (path.getD "")], some (read_file (path.getD "")))
      else if truthyStr inline_script then
        (([] : List ScriptEvent), some (inline_script.getD ""))
      else
        ([], none)
    match scriptOpt with
    | none => (events, .error "NameError: name script is not defined")
    | some script =>
      let shebang := script_shebang script_type
      let preamble := script_preamble sd_name script_type repo_path_param
      let callable_str := script_invocation script_type (callable.getD "") params results
      if truthyStr callable then
        (events, .ok (joinStrings "\n" [shebang, preamble, script, callable_str]))
      else
        (events, .ok (joinStrings "\n" [shebang, preamble, script]))

/-- The full declared-parameter catalog (`params.AllParams`, an external
parameter catalog), restricted to the parameters `promote_single_step`
consumes. -/
structure AllParams where
  architecture : NamedParam
  cicd_cfg_name : NamedParam
  gardenlinux_committish : NamedParam
  gardenlinux_epoch : NamedParam
  modifiers : NamedParam
  platform : NamedParam
  build_targets : NamedParam
  version : NamedParam
  repo_dir : NamedParam
  gardenlinux_repo_dir : NamedParam
deriving Repr

/-- Embeds `promote_single_step` of `steps.py`. The module-level value of
the mutable `env_vars=[]` default argument is threaded explicitly as
`default_env_vars`; `env_vars = none` models a call that omits the
argument and therefore reads and mutates (appends to) that shared default
list, which is also installed as the step's `env` without copying. The
updated default-list value is returned as the last component. -/
def promote_single_step (read_file : String → String) (sd_name steps_dir : String)
    (ps : AllParams)
    (default_env_vars : List EnvVar)
    (env_vars : Option (List EnvVar))
    (volume_mounts : List VolumeMount) :
    List ScriptEvent × Except String ((TaskStep × List NamedParam) × List EnvVar) :=
  let step_params := [ps.architecture, ps.cicd_cfg_name, ps.gardenlinux_committish,
    ps.gardenlinux_epoch, ps.modifiers, ps.platform, ps.build_targets, ps.version]
  let base := env_vars.getD default_env_vars
  let new_env := base ++ [⟨"GARDENLINUX_PATH", ps.gardenlinux_repo_dir.default⟩]
  let new_default := match env_vars with
    | none => new_env
    | some _ => default_env_vars
  match task_step_script read_file sd_name .PYTHON3 (some "promote_single_step")
      step_params none (some ps.repo_dir) (some (steps_dir ++ "/promote_step.py")) none with
  | (evs, .error e) => (evs, .error e)
  | (evs, .ok script) =>
    (evs, .ok ((⟨"promote-step", "$(params.step_image)", script, volume_mounts, new_env⟩,
      step_params), new_default))

/-- Whether a rendering/step-building result succeeded. -/
def pssOk (r : List ScriptEvent × Except String ((TaskStep × List NamedParam) × List EnvVar)) :
    Bool :=
  match r.2 with
  | .ok _ => true
  | .error _ => false

/-- The `env` of the task step built by `promote_single_step` (empty on
error). -/
def pssStepEnv
    (r : List ScriptEvent × Except String ((TaskStep × List NamedParam) × List EnvVar)) :
    List EnvVar :=
  match r.2 with
  | .ok x => x.1.1.env
  | .error _ => []

/-- The value of the shared default `env_vars` list after a call of
`promote_single_step` (unchanged on error). -/
def pssShared (d : List EnvVar)
    (r : List ScriptEvent × Except String ((TaskStep × List NamedParam) × List EnvVar)) :
    List EnvVar :=
  match r.2 with
  | .ok x => x.2
  | .error _ => d

/-! ## `glci/credentialmanager.py` — credential manager -/

/-- The process environment as the credential manager reads it:
`os.getenv` of the two secret-server variables. -/
structure ProcEnv where
  secrets_server_endpoint : Option String
  secrets_server_concourse_cfg_name : Option String
deriving DecidableEq, Repr

/-- The policy enum `CCconfigPrecedence`. -/
inductive CCconfigPrecedence
  | ALWAYS
  | PROBE
  | NEVER
deriving DecidableEq, Repr

/-- The `value` of each `CCconfigPrecedence` member. -/
def CCconfigPrecedence.value : CCconfigPrecedence → String
  | .ALWAYS => "always"
  | .PROBE => "probe"
  | .NEVER => "never"

/-- Embeds `CCconfigPrecedence.equals`: compares the member's value string
with the given string. -/
def CCconfigPrecedence.equals (self : CCconfigPrecedence) (s : String) : Bool :=
  self.value == s

/-- Embeds the `cc_config_server_available` computation of
`CredentialManager.__init__`: Python truthiness of
`os.getenv("SECRETS_SERVER_ENDPOINT") and
os.getenv("SECRETS_SERVER_CONCOURSE_CFG_NAME")`. -/
def cc_config_server_available (env : ProcEnv) : Bool :=
  truthyStr env.secrets_server_endpoint && truthyStr env.secrets_server_concourse_cfg_name

/-- The state of a constructed `CredentialManager`: the resolved
`use_cc_config_server` flag. -/
structure CredentialManager where
  use_cc_config_server : Bool
deriving DecidableEq, Repr

/-- Embeds `CredentialManager.__init__`, resolving the
`use_cc_config_server` flag from the policy string (as supplied by the
`--use-cc-config` CLI argument) and the environment. -/
def CredentialManager.construct (use_cc_config : String) (env : ProcEnv) : CredentialManager :=
  ⟨CCconfigPrecedence.ALWAYS.equals use_cc_config ||
    (CCconfigPrecedence.PROBE.equals use_cc_config && cc_config_server_available env)⟩

/-- Embeds `CredentialManager.get_instance`: the class-level `_instance`
slot is threaded explicitly; the result is the returned instance, the new
slot value, and the number of constructor runs performed (0 or 1). -/
def CredentialManager.get_instance (inst : Option CredentialManager)
    (use_cc_config : String) (env : ProcEnv) :
    CredentialManager × Option CredentialManager × Nat :=
  match inst with
  | none =>
    let i := CredentialManager.construct use_cc_config env
    (i, some i, 1)
  | some i => (i, some i, 0)

/-- Runs a sequence of `get_instance` calls (one policy string per call)
from a given `_instance` slot state, collecting the returned instances,
the final slot state and the total number of constructor runs. -/
def runGetInstance (env : ProcEnv) :
    Option CredentialManager → List String → List CredentialManager × Option CredentialManager × Nat
  | inst, [] => ([], inst, 0)
  | inst, p :: ps =>
    let (i, inst2, c) := CredentialManager.get_instance inst p env
    let (is, inst3, cs) := runGetInstance env inst2 ps
    (i :: is, inst3, c + cs)

/-! ## `ci/promote.py` — release promotion orchestrator -/

/-- The per-platform publish routines `publish_image` dispatches to. -/
inductive PublishFn
  | alicloud
  | aws
  | gcp
  | azureSig
  | azure
  | openstack
  | oci
deriving DecidableEq, Repr

/-- The per-platform cleanup routines `publish_image` dispatches to. -/
inductive CleanupFn
  | alicloud
  | aws
  | openstack
deriving DecidableEq, Repr

/-- Observable events of a `publish_image` run. -/
inductive PromoteEvent
  | publishInvoked (f : PublishFn)
  | tracePrinted
  | cleanupInvoked (f : CleanupFn)
  | warnNoCleanup (platform : String)
  | warnUnknownPlatform (platform : String)
deriving DecidableEq, Repr

/-- The if/elif platform dispatch of `publish_image`: the selected publish
routine and the optionally registered cleanup routine; `none` for an
unknown platform. For azure the shared-image-gallery routine is selected
when `cicd_cfg.publish.azure.shared_gallery_cfg_name` is truthy. -/
def publishDispatch (platform : String) (cicd_cfg : CicdCfg) :
    Option (PublishFn × Option CleanupFn) :=
  if platform = "ali" then some (.alicloud, some .alicloud)
  else if platform = "aws" then some (.aws, some .aws)
  else if platform = "gcp" then some (.gcp, none)
  else if platform = "azure" then
    if truthyStr cicd_cfg.publish.azure.shared_gallery_cfg_name then
      some (.azureSig, none)
    else
      some (.azure, none)
  else if platform = "openstack" then some (.openstack, some .openstack)
  else if platform = "oci" then some (.oci, none)
  else none

/-- Embeds `publish_image` of `ci/promote.py`. The external per-provider
routines are oracles: `runPublish` gives the outcome of the selected
publish routine, `runCleanup` that of a cleanup routine. Events record
the calls and log/trace output in order. On a publish exception the trace
is printed, then the registered cleanup routine (if any) runs and the
original exception is re-raised (`raise`); if the cleanup itself raises,
its exception propagates instead; with no registered cleanup a warning is
logged and the original exception is re-raised. An unknown platform only
logs a warning and returns the release unchanged. -/
def publish_image (release : OnlineReleaseManifest) (cicd_cfg : CicdCfg)
    (runPublish : PublishFn → Except String OnlineReleaseManifest)
    (runCleanup : CleanupFn → Except String Unit) :
    List PromoteEvent × Except String OnlineReleaseManifest :=
  match publishDispatch release.platform cicd_cfg with
  | none => ([.warnUnknownPlatform release.platform], .ok release)
  | some (pf, cleanup) =>
    match runPublish pf with
    | .ok r => ([.publishInvoked pf], .ok r)
    | .error e =>
      match cleanup with
      | some cf =>
        match runCleanup cf with
        | .ok _ => ([.publishInvoked pf, .tracePrinted, .cleanupInvoked cf], .error e)
        | .error e2 => ([.publishInvoked pf, .tracePrinted, .cleanupInvoked cf], .error e2)
      | none =>
        ([.publishInvoked pf, .tracePrinted, .warnNoCleanup release.platform], .error e)

/-! ## `.cicd-cli.py` — CLI entry point -/

/-- Observable events of the artifact-download path (informational
"Downloading object…" prints are not modelled; error and warning prints
and the actual S3 call are). -/
inductive DlEvent
  | s3Download (bucket : String) (key : String) (file : String)
  | errorPrinted (msg : String)
  | warningPrinted (msg : String)
deriving DecidableEq, Repr

/-- Embeds `_download_obj_to_file`: performs the S3 download and returns 0. -/
def download_obj_to_file (bucket_name s3_key file_name : String) : List DlEvent × Nat :=
  ([.s3Download bucket_name s3_key file_name], 0)

/-- Embeds `_download_release_artifact` of `.cicd-cli.py`.
`build_s3_bucket_name` stands for `cicd_cfg.build.s3_bucket_name` (used
for legacy bare-string log references). Returns the printed events and
the handler's numeric return code (1 on not-found, else the download's
return code 0). -/
def download_release_artifact (build_s3_bucket_name : String) (name outfile : String)
    (manifest : OnlineReleaseManifest) : List DlEvent × Nat :=
  if name = "log" ∨ name = "logs" then
    match manifest.logs with
    | .noLogs => ([.errorPrinted "Error: No logs attached to release manifest"], 1)
    | .legacy k =>
      if k = "" then
        ([.errorPrinted "Error: No logs attached to release manifest"], 1)
      else
        download_obj_to_file build_s3_bucket_name k outfile
    | .structured f =>
      download_obj_to_file f.s3_bucket_name f.s3_key outfile
  else
    match manifest.paths.filter (fun entry => entry.name == name) with
    | [] => ([.errorPrinted ("Error: No object in release manifest with name " ++ name)], 1)
    | first :: rest =>
      let warn : List DlEvent :=
        if rest.isEmpty then []
        else [.warningPrinted ("Warning.: Found more than one file with name " ++ name
          ++ ", using first one")]
      let (ev, rc) := download_obj_to_file first.s3_bucket_name first.s3_key outfile
      (warn ++ ev, rc)

/-- How a CLI command handler ends: an explicit `sys.exit(code)`, or a
normal return whose value `main()` receives (and discards). -/
inductive CmdResult
  | exited (code : Nat)
  | returned (rc : Option Nat)
deriving DecidableEq, Repr

/-- The process exit status produced by `main()`: `sys.exit` codes are
honored; a handler's normal return value is discarded, so the process
exits 0. -/
def process_exit : CmdResult → Nat
  | .exited c => c
  | .returned _ => 0

/-- Embeds the `--download` path of `retrieve_single_manifest` (after
manifest lookup): a missing manifest exits via `sys.exit(1)`; otherwise
the handler returns `_download_release_artifact`'s return code to
`main()`. -/
def retrieve_single_manifest_download (found_release : Option OnlineReleaseManifest)
    (build_s3_bucket_name download_name outfile : String) : List DlEvent × CmdResult :=
  match found_release with
  | none => ([.errorPrinted "ERROR: no such release found"], .exited 1)
  | some m =>
    let (ev, rc) := download_release_artifact build_s3_bucket_name download_name outfile m
    (ev, .returned (some rc))

/-- Embeds the `^[\d\.]+$` check of `_fix_version`: a non-empty string of
decimal digits and dots. -/
def is_proper_version (s : String) : Bool :=
  !s.isEmpty && s.data.all (fun c => c.isDigit || c = '.')

/-- The warning printed by `_fix_version` for a non-semver version. -/
def semverWarn (v : String) : String :=
  ">>> WARNING: " ++ v ++ " is not a semver version! <<<"

/-- The warning printed by `_fix_version` for a version/epoch mismatch. -/
def epochWarn (result : String) (epoch : Int) : String :=
  ">>> WARNING: version " ++ result ++ " does not match epoch " ++ toString epoch ++ "! <<<"

/-- Embeds `_fix_version` of `.cicd-cli.py`. `workingtree_version` stands
for `glci.model._parse_version_from_workingtree()`. Returns the printed
warnings in order and either the resolved version or the `ValueError`
raised by `int(result.split('.')[0])` when the resolved version's leading
dot-segment is not an integer numeral. -/
def fix_version (parsed_version : String) (parsed_epoch : Int)
    (workingtree_version : String) : List String × Except String String :=
  let is_proper := is_proper_version parsed_version
  let (warns, result) :=
    if parsed_version ≠ workingtree_version then
      if is_proper then (([] : List String), parsed_version)
      else ([semverWarn parsed_version], parsed_version)
    else
      if is_proper then (([] : List String), parsed_version)
      else ([], toString parsed_epoch ++ ".0")
  match pyInt? (leadingSegment result) with
  | none => (warns, .error "ValueError: invalid literal for int() with base 10")
  | some n =>
    if parsed_epoch ≠ n then (warns ++ [epochWarn result parsed_epoch], .ok result)
    else (warns, .ok result)

/-! ## Claim-side definitions (from the specification's words, for
refinement comparison) -/

/-- Claim-side rendering for C6, following the spec sentence "Output is
the concatenation of non-empty lines among: shebang, preamble, script
body, invocation line": empty components are dropped before joining. -/
def task_step_script_spec_join (components : List String) : String :=
  joinStrings "\n" (components.filter (fun s => s ≠ ""))

/-- Claim-side rendering for C8 of one parameter:
`name_with_underscores='$(params.original-name)'`. -/
def specPyParamArg (p : NamedParam) : String :=
  underscore p.name ++ "=" ++ apos ++ "$(params." ++ p.name ++ ")" ++ apos

/-- Claim-side rendering for C8 of one result:
`name_with_underscores='$(results.original-name.path)'`. -/
def specPyResultArg (r : NamedParam) : String :=
  underscore r.name ++ "=" ++ apos ++ "$(results." ++ r.name ++ ".path)" ++ apos

/-- Claim-side argument string for C8: parameters joined by commas in
list order, with the declared results appended the same way. -/
def spec_py_args (ps rs : List NamedParam) : String :=
  joinStrings "," (ps.map specPyParamArg)
  ++ (if rs = [] then ""
      else "," ++ joinStrings "," (rs.map specPyResultArg))

deriving instance DecidableEq for Except

/-! ## Helper lemmas -/

theorem string_append_ne_empty_left (a b : String) (h : a ≠ "") : a ++ b ≠ "" := by
  intro hc
  apply h
  have hd : (a ++ b).data = [] := by rw [hc]
  rw [String.data_append] at hd
  rcases List.append_eq_nil.mp hd with ⟨ha, -⟩
  exact String.ext ha

theorem string_append_ne_empty_right (a b : String) (h : b ≠ "") : a ++ b ≠ "" := by
  intro hc
  apply h
  have hd : (a ++ b).data = [] := by rw [hc]
  rw [String.data_append] at hd
  rcases List.append_eq_nil.mp hd with ⟨-, hb⟩
  exact String.ext hb

theorem runGetInstance_some (env : ProcEnv) (i : CredentialManager) (ps : List String) :
    runGetInstance env (some i) ps = (List.replicate ps.length i, some i, 0) := by
  induction ps with
  | nil => rfl
  | cons p ps ih => simp [runGetInstance, CredentialManager.get_instance, ih, List.replicate]

theorem specPyParamArg_eq : specPyParamArg = pyParamArg := funext fun _ => rfl

theorem specPyResultArg_eq : specPyResultArg = pyResultArg := funext fun _ => rfl

theorem pyArgs_eq_spec (ps rs : List NamedParam) :
    pyArgs ps (some rs) = spec_py_args ps rs := by
  cases rs with
  | nil => simp [pyArgs, spec_py_args, specPyParamArg_eq]
  | cons r rest =>
    simp [pyArgs, spec_py_args, specPyParamArg_eq, specPyResultArg_eq, String.append_assoc]

/-! ## Claims -/

/-- Claim C1: for every release manifest whose platform has a registered
cleanup routine (ali, aws, openstack), if the selected publish routine
raises any exception, `publish_image` prints the exception trace, invokes
that platform's cleanup routine exactly once, and then re-raises the
original exception; for a platform with no registered cleanup routine
(gcp, azure, oci) it instead logs a warning and still re-raises. No retry
is attempted in either case: the event lists below contain exactly one
`publishInvoked` event and (in the first group) exactly one
`cleanupInvoked` event. -/
theorem publish_image_failure_cleanup_reraise
    (release : OnlineReleaseManifest) (cicd_cfg : CicdCfg) (e : String)
    (runPublish : PublishFn → Except String OnlineReleaseManifest)
    (runCleanup : CleanupFn → Except String Unit)
    (hp : ∀ f, runPublish f = .error e) (hc : ∀ f, runCleanup f = .ok ()) :
    (release.platform = "ali" →
      publish_image release cicd_cfg runPublish runCleanup =
        ([.publishInvoked .alicloud, .tracePrinted, .cleanupInvoked .alicloud], .error e)) ∧
    (release.platform = "aws" →
      publish_image release cicd_cfg runPublish runCleanup =
        ([.publishInvoked .aws, .tracePrinted, .cleanupInvoked .aws], .error e)) ∧
    (release.platform = "openstack" →
      publish_image release cicd_cfg runPublish runCleanup =
        ([.publishInvoked .openstack, .tracePrinted, .cleanupInvoked .openstack], .error e)) ∧
    (release.platform = "gcp" →
      publish_image release cicd_cfg runPublish runCleanup =
        ([.publishInvoked .gcp, .tracePrinted, .warnNoCleanup "gcp"], .error e)) ∧
    (release.platform = "azure" →
      publish_image release cicd_cfg runPublish runCleanup =
        ([.publishInvoked
            (if truthyStr cicd_cfg.publish.azure.shared_gallery_cfg_name then .azureSig
             else .azure),
          .tracePrinted, .warnNoCleanup "azure"], .error e)) ∧
    (release.platform = "oci" →
      publish_image release cicd_cfg runPublish runCleanup =
        ([.publishInvoked .oci, .tracePrinted, .warnNoCleanup "oci"], .error e)) := by
  refine ⟨fun h => by simp [publish_image, publishDispatch, h, hp, hc],
    fun h => by simp [publish_image, publishDispatch, h, hp, hc],
    fun h => by simp [publish_image, publishDispatch, h, hp, hc],
    fun h => by simp [publish_image, publishDispatch, h, hp, hc],
    fun h => ?_,
    fun h => by simp [publish_image, publishDispatch, h, hp, hc]⟩
  by_cases hg : truthyStr cicd_cfg.publish.azure.shared_gallery_cfg_name = true <;>
    simp [publish_image, publishDispatch, h, hp, hc, hg]

/-- Witness for C1: a concrete aws release whose publish routine raises
"boom" runs the aws cleanup once and re-raises; the same failure on gcp
only warns and re-raises. -/
theorem publish_image_failure_cleanup_reraise_witness :
    publish_image ⟨"aws", [], .noLogs, none⟩ ⟨⟨⟨none⟩⟩⟩
        (fun _ => .error "boom") (fun _ => .ok ()) =
      ([.publishInvoked .aws, .tracePrinted, .cleanupInvoked .aws], .error "boom") ∧
    publish_image ⟨"gcp", [], .noLogs, none⟩ ⟨⟨⟨none⟩⟩⟩
        (fun _ => .error "boom") (fun _ => .ok ()) =
      ([.publishInvoked .gcp, .tracePrinted, .warnNoCleanup "gcp"], .error "boom") :=
  ⟨(publish_image_failure_cleanup_reraise ⟨"aws", [], .noLogs, none⟩ ⟨⟨⟨none⟩⟩⟩ "boom"
      (fun _ => .error "boom") (fun _ => .ok ()) (fun _ => rfl) (fun _ => rfl)).2.1 rfl,
    (publish_image_failure_cleanup_reraise ⟨"gcp", [], .noLogs, none⟩ ⟨⟨⟨none⟩⟩⟩ "boom"
      (fun _ => .error "boom") (fun _ => .ok ()) (fun _ => rfl) (fun _ => rfl)).2.2.2.1 rfl⟩

/-- Claim C2: constructing the credential manager with policy value
"always" selects the secret-service mode; with "never" it selects
local/environment mode; with "probe" it selects the secret-service mode
if and only if both environment variables SECRETS_SERVER_ENDPOINT and
SECRETS_SERVER_CONCOURSE_CFG_NAME are set (to non-empty values, per
Python truthiness), and local mode otherwise. -/
theorem credential_manager_policy_modes (env : ProcEnv) :
    CredentialManager.construct CCconfigPrecedence.ALWAYS.value env = ⟨true⟩ ∧
    CredentialManager.construct CCconfigPrecedence.NEVER.value env = ⟨false⟩ ∧
    (CredentialManager.construct CCconfigPrecedence.PROBE.value env = ⟨true⟩ ↔
      (∃ s, env.secrets_server_endpoint = some s ∧ s ≠ "") ∧
      (∃ t, env.secrets_server_concourse_cfg_name = some t ∧ t ≠ "")) := by
  obtain ⟨a, b⟩ := env
  refine ⟨by simp [CredentialManager.construct, CCconfigPrecedence.equals,
      CCconfigPrecedence.value],
    by simp [CredentialManager.construct, CCconfigPrecedence.equals,
      CCconfigPrecedence.value], ?_⟩
  cases a <;> cases b <;>
    simp [CredentialManager.construct, CCconfigPrecedence.equals, CCconfigPrecedence.value,
      cc_config_server_available, truthyStr, CredentialManager.mk.injEq, bne_iff_ne]

/-- Claim C3 (code bug): for a manifest with path entries named a, a, b
and a request for "c", the download handler prints the not-found error,
performs no S3 call, and returns code 1 — but `main()` discards the
handler's return value, so the process exit status is 0, not 1 as the
claim/spec state. The multiple-match half of the claim does hold: a
request for "a" warns and downloads the first matching entry. -/
theorem download_missing_artifact_exit_zero :
    download_release_artifact "bucket" "c" "out"
        ⟨"aws", [⟨"a", "b1", "k1"⟩, ⟨"a", "b2", "k2"⟩, ⟨"b", "b3", "k3"⟩], .noLogs, none⟩ =
      ([.errorPrinted "Error: No object in release manifest with name c"], 1) ∧
    process_exit (retrieve_single_manifest_download
        (some ⟨"aws", [⟨"a", "b1", "k1"⟩, ⟨"a", "b2", "k2"⟩, ⟨"b", "b3", "k3"⟩], .noLogs, none⟩)
        "bucket" "c" "out").2 = 0 ∧
    download_release_artifact "bucket" "a" "out"
        ⟨"aws", [⟨"a", "b1", "k1"⟩, ⟨"a", "b2", "k2"⟩, ⟨"b", "b3", "k3"⟩], .noLogs, none⟩ =
      ([.warningPrinted "Warning.: Found more than one file with name a, using first one",
        .s3Download "b1" "k1" "out"], 0) := by
  refine ⟨by decide, by decide, by decide⟩

/-- Counterexample for C4: for supplied version "vX" (different from the
working-tree default "1.0") and epoch 1, `_fix_version` prints the
non-semver warning and then raises a ValueError at
`int(result.split('.')[0])` — it does not return the version unchanged as
the claim states. -/
theorem fix_version_nonnumeric_raises :
    fix_version "vX" 1 "1.0" =
      ([">>> WARNING: vX is not a semver version! <<<"],
        .error "ValueError: invalid literal for int() with base 10") ∧
    (fix_version "vX" 1 "1.0").2 ≠ .ok "vX" := by
  refine ⟨by decide, by decide⟩

/-- Claim C4 as amended: provided the resolved version's leading
dot-segment is an integer numeral, a user-supplied version that differs
from the working-tree default is returned unchanged (with a warning when
it is not a strict dot-and-digit string); if it equals the working-tree
default and that default is not a strict dot-and-digit string, the result
is "<epoch>.0"; whenever the resolved version's leading numeric segment
does not equal the supplied epoch a warning is printed and the routine
still returns normally. When the leading dot-segment is not an integer
numeral the routine instead raises a ValueError (see the
counterexample). -/
theorem fix_version_amended (v wt : String) (e n : Int) :
    (v ≠ wt → pyInt? (leadingSegment v) = some n →
      fix_version v e wt =
        ((if is_proper_version v then [] else [semverWarn v]) ++
          (if e ≠ n then [epochWarn v e] else []), .ok v)) ∧
    (v = wt → is_proper_version wt = false →
      pyInt? (leadingSegment (toString e ++ ".0")) = some e →
      fix_version v e wt = ([], .ok (toString e ++ ".0"))) ∧
    (v = wt → is_proper_version wt = true → pyInt? (leadingSegment v) = some n →
      fix_version v e wt = ((if e ≠ n then [epochWarn v e] else []), .ok v)) := by
  refine ⟨fun h hn => ?_, fun h hp hn => ?_, fun h hp hn => ?_⟩
  · by_cases hip : is_proper_version v = true <;>
      by_cases hen : e = n <;>
      simp [fix_version, h, hip, hn, hen]
  · subst h
    simp [fix_version, hp, hn]
  · subst h
    by_cases hen : e = n <;> simp [fix_version, hp, hn, hen]

/-- Witness for C4: version "2.0" with epoch 1 and default "1.0" is kept
and only the epoch-mismatch warning is printed; the non-semver default
"vY" supplied unchanged with epoch 1 resolves to "1.0". -/
theorem fix_version_amended_witness :
    fix_version "2.0" 1 "1.0" =
      ([">>> WARNING: version 2.0 does not match epoch 1! <<<"], .ok "2.0") ∧
    fix_version "vY" 1 "vY" = ([], .ok "1.0") :=
  ⟨((fix_version_amended "2.0" "1.0" 1 2).1 (by decide) (by decide)).trans (by decide),
    ((fix_version_amended "vY" "vY" 1 2).2.1 rfl (by decide) (by decide)).trans (by decide)⟩

/-- Claim C5 (code bug): for the shell kind with a callable, one
parameter "foo" and one result "out", the source overwrites the argument
string (`args = ' ' + …` instead of `+=`), so the rendered invocation
line is `c  "$(results.out.path)"` — the parameter placeholders are
dropped and a double space is left — rather than the claimed
`c "$(params.foo)" "$(results.out.path)"`. -/
theorem shell_invocation_drops_params :
    (task_step_script (fun _ => "") "glci" .BOURNE_SHELL (some "c")
        [⟨"foo", none⟩] (some [⟨"out", none⟩]) none none (some "body")).2 =
      .ok "#!/usr/bin/env bash\n\nbody\nc  \"$(results.out.path)\"" ∧
    (task_step_script (fun _ => "") "glci" .BOURNE_SHELL (some "c")
        [⟨"foo", none⟩] (some [⟨"out", none⟩]) none none (some "body")).2 ≠
      .ok "#!/usr/bin/env bash\n\nbody\nc \"$(params.foo)\" \"$(results.out.path)\"" := by
  refine ⟨by decide, by decide⟩

/-- Counterexample for C6: with an absent preamble (here the
embedded-interpreter kind without a repository-path parameter) the
rendered script keeps the empty preamble component, leaving an empty line
between the shebang and the script body; it is not the concatenation of
only the non-empty lines, contradicting the claim. -/
theorem render_keeps_empty_preamble_line :
    (task_step_script (fun _ => "") "glci" .PYTHON3 (some "f") [] none none none
        (some "body")).2 = .ok "#!/usr/bin/env python3\n\nbody\nf()" ∧
    "#!/usr/bin/env python3\n\nbody\nf()" ≠
      task_step_script_spec_join ["#!/usr/bin/env python3", "", "body", "f()"] := by
  refine ⟨by decide, by decide⟩

/-- Claim C6 as amended: the rendered step script is the
newline-concatenation of shebang, preamble, script body and (when a
callable name is supplied) the invocation line, with an absent preamble
contributing an empty component — so exactly one empty line appears
between the shebang and the script body in that case; when no callable
name is supplied no invocation line is appended; and when every component
is non-empty the output does equal the concatenation of the non-empty
lines, as the original claim states. -/
theorem task_step_script_join_amended (rf : String → String) (sd : String) (st : ScriptType)
    (ps : List NamedParam) (rs : Option (List NamedParam)) (rp : Option NamedParam)
    (body : String) (hb : body ≠ "") :
    (task_step_script rf sd st none ps rs rp none (some body) =
      ([], .ok (script_shebang st ++ "\n" ++ script_preamble sd st rp ++ "\n" ++ body))) ∧
    (∀ c, c ≠ "" → task_step_script rf sd st (some c) ps rs rp none (some body) =
      ([], .ok (script_shebang st ++ "\n" ++ script_preamble sd st rp ++ "\n" ++ body
        ++ "\n" ++ script_invocation st c ps rs))) ∧
    (script_preamble sd st rp = "" →
      task_step_script rf sd st none ps rs rp none (some body) =
        ([], .ok (script_shebang st ++ "\n\n" ++ body))) ∧
    (script_preamble sd st rp ≠ "" → ∀ c, c ≠ "" →
      task_step_script rf sd st (some c) ps rs rp none (some body) =
        ([], .ok (task_step_script_spec_join
          [script_shebang st, script_preamble sd st rp, body,
            script_invocation st c ps rs]))) := by
  have hsb : script_shebang st ≠ "" := by cases st <;> decide
  refine ⟨?_, fun c hc => ?_, fun hpre => ?_, fun hpre c hc => ?_⟩
  · simp [task_step_script, truthyStr, hb, joinStrings, String.append_assoc]
  · simp [task_step_script, truthyStr, hb, hc, joinStrings, String.append_assoc]
  · have h2 : ("\n" : String) ++ "\n" = "\n\n" := by decide
    simp [task_step_script, truthyStr, hb, hpre, joinStrings, ← String.append_assoc]
    rw [String.append_assoc (script_shebang st), h2]
  · have hinv : script_invocation st c ps rs ≠ "" := by
      cases st
      · exact string_append_ne_empty_left _ _
          (string_append_ne_empty_right _ _ (by decide))
      · exact string_append_ne_empty_right _ _ (by decide)
    simp [task_step_script, task_step_script_spec_join, truthyStr, hb, hc, hpre, hsb, hinv,
      joinStrings, String.append_assoc]

/-- Witness for C6 (amended): concrete renders with and without a
callable, the empty preamble leaving an empty line. -/
theorem task_step_script_join_amended_witness :
    task_step_script (fun _ => "") "glci" .PYTHON3 none [] none none none (some "body") =
      ([], .ok "#!/usr/bin/env python3\n\nbody") ∧
    task_step_script (fun _ => "") "glci" .BOURNE_SHELL (some "g") [] none none none
        (some "body") =
      ([], .ok "#!/usr/bin/env bash\n\nbody\ng ") :=
  ⟨((task_step_script_join_amended (fun _ => "") "glci" .PYTHON3 [] none none "body"
      (by decide)).1).trans (by decide),
    ((task_step_script_join_amended (fun _ => "") "glci" .BOURNE_SHELL [] none none "body"
      (by decide)).2.1 "g" (by decide)).trans (by decide)⟩

/-- Claim C7: whenever both a (truthy) script file path and a (truthy)
inline script body are supplied, `task_step_script` raises the
configuration ValueError before performing any file I/O: the event list
is empty, so the script file is never opened. -/
theorem both_script_sources_error (rf : String → String) (sd : String) (st : ScriptType)
    (c : Option String) (ps : List NamedParam) (rs : Option (List NamedParam))
    (rp : Option NamedParam) (p s : String) (hp : p ≠ "") (hs : s ≠ "") :
    task_step_script rf sd st c ps rs rp (some p) (some s) =
      ([], .error "Either use path or inline_script but not both.") := by
  simp [task_step_script, truthyStr, hp, hs]

/-- Witness for C7: a concrete call with both sources supplied. -/
theorem both_script_sources_error_witness :
    task_step_script (fun _ => "") "glci" .PYTHON3 (some "f") [] none none
        (some "a.py") (some "body") =
      ([], .error "Either use path or inline_script but not both.") :=
  both_script_sources_error (fun _ => "") "glci" .PYTHON3 (some "f") [] none none
    "a.py" "body" (by decide) (by decide)

/-- Claim C8: for the embedded-interpreter kind with a callable name,
every parameter is passed in the invocation line as
name-with-underscores='$(params.original-name)', joined by commas in list
order, with each declared result appended the same way as
name-with-underscores='$(results.original-name.path)' (`spec_py_args`
states exactly this); and the search-path preamble line is emitted if and
only if a repository-path parameter is supplied (first conjunct: present;
second conjunct: absent, only an empty component remains). -/
theorem python_invocation_rendering (rf : String → String) (sd : String) (c : String)
    (ps rs : List NamedParam) (rp : NamedParam) (body : String)
    (hc : c ≠ "") (hb : body ≠ "") :
    task_step_script rf sd .PYTHON3 (some c) ps (some rs) (some rp) none (some body) =
      ([], .ok ("#!/usr/bin/env python3\n"
        ++ ("import sys,os;" ++ extend_python_path_snippet sd rp.name)
        ++ "\n" ++ body ++ "\n" ++ c ++ "(" ++ spec_py_args ps rs ++ ")")) ∧
    task_step_script rf sd .PYTHON3 (some c) ps (some rs) none none (some body) =
      ([], .ok ("#!/usr/bin/env python3\n\n" ++ body ++ "\n"
        ++ c ++ "(" ++ spec_py_args ps rs ++ ")")) := by
  have h2 : ("\n" : String) ++ "\n" = "\n\n" := by decide
  constructor
  · simp [task_step_script, truthyStr, hb, hc, joinStrings, script_shebang, script_preamble,
      script_invocation, pyArgs_eq_spec, String.append_assoc]
  · simp [task_step_script, truthyStr, hb, hc, joinStrings, script_shebang, script_preamble,
      script_invocation, pyArgs_eq_spec, ← String.append_assoc, h2]

/-- Witness for C8: parameters "foo-bar" and "baz" and result
"manifest-set-key" with a repository-path parameter render the preamble
line and the named-argument invocation line. -/
theorem python_invocation_rendering_witness :
    task_step_script (fun _ => "") "glci" .PYTHON3 (some "f")
        [⟨"foo-bar", none⟩, ⟨"baz", none⟩] (some [⟨"manifest-set-key", none⟩])
        (some ⟨"repo-dir", none⟩) none (some "body") =
      ([], .ok ("#!/usr/bin/env python3\n"
        ++ ("import sys,os;" ++ extend_python_path_snippet "glci" "repo-dir")
        ++ "\n" ++ "body" ++ "\n" ++ "f" ++ "("
        ++ spec_py_args [⟨"foo-bar", none⟩, ⟨"baz", none⟩] [⟨"manifest-set-key", none⟩]
        ++ ")")) :=
  (python_invocation_rendering (fun _ => "") "glci" "f"
    [⟨"foo-bar", none⟩, ⟨"baz", none⟩] [⟨"manifest-set-key", none⟩]
    ⟨"repo-dir", none⟩ "body" (by decide) (by decide)).1

/-- Claim C9: the credential manager accessor creates the process-wide
instance only on the first call, with the policy supplied to that first
call; every later call in the sequence — whatever policy it requests —
returns that same instance, and the constructor runs exactly once over
the whole call sequence. -/
theorem credential_manager_singleton (env : ProcEnv) (p : String) (ps : List String) :
    runGetInstance env none (p :: ps) =
      (List.replicate (ps.length + 1) (CredentialManager.construct p env),
        some (CredentialManager.construct p env), 1) := by
  simp [runGetInstance, CredentialManager.get_instance, runGetInstance_some, List.replicate]

/-- Claim C10 (implicit): the `env_vars=[]` default of
`promote_single_step` is one shared mutable list. Starting from the
module-load state (empty list), a first call omitting `env_vars` appends
its GARDENLINUX_PATH entry to the shared list and installs that very list
as the step's env; a second call omitting `env_vars` appends to the same
list, so the second step's env holds the GARDENLINUX_PATH entry twice and
is again the shared list itself rather than a fresh per-call list. -/
theorem promote_single_step_shared_default_env (rf : String → String)
    (sd stepsDir : String) (p1 p2 : AllParams) (v1 v2 : List VolumeMount) :
    pssOk (promote_single_step rf sd stepsDir p1 [] none v1) = true ∧
    pssStepEnv (promote_single_step rf sd stepsDir p1 [] none v1) =
      [⟨"GARDENLINUX_PATH", p1.gardenlinux_repo_dir.default⟩] ∧
    pssShared [] (promote_single_step rf sd stepsDir p1 [] none v1) =
      pssStepEnv (promote_single_step rf sd stepsDir p1 [] none v1) ∧
    pssOk (promote_single_step rf sd stepsDir p2
      (pssShared [] (promote_single_step rf sd stepsDir p1 [] none v1)) none v2) = true ∧
    pssStepEnv (promote_single_step rf sd stepsDir p2
      (pssShared [] (promote_single_step rf sd stepsDir p1 [] none v1)) none v2) =
      [⟨"GARDENLINUX_PATH", p1.gardenlinux_repo_dir.default⟩,
        ⟨"GARDENLINUX_PATH", p2.gardenlinux_repo_dir.default⟩] ∧
    pssShared (pssShared [] (promote_single_step rf sd stepsDir p1 [] none v1))
      (promote_single_step rf sd stepsDir p2
        (pssShared [] (promote_single_step rf sd stepsDir p1 [] none v1)) none v2) =
      pssStepEnv (promote_single_step rf sd stepsDir p2
        (pssShared [] (promote_single_step rf sd stepsDir p1 [] none v1)) none v2) ∧
    (pssStepEnv (promote_single_step rf sd stepsDir p2
      (pssShared [] (promote_single_step rf sd stepsDir p1 [] none v1)) none v2)).countP
        (fun ev => ev.name == "GARDENLINUX_PATH") = 2 := by
  have hne : stepsDir ++ "/promote_step.py" ≠ "" :=
    string_append_ne_empty_right _ _ (by decide)
  refine ⟨?_, ?_, ?_, ?_, ?_, ?_, ?_⟩ <;>
    simp [promote_single_step, task_step_script, truthyStr, pssOk, pssStepEnv, pssShared,
      bne_iff_ne, hne, List.countP_cons]
